import Mathlib

/-
  Verification development for screen_brightness_control/windows.py.

  The Python source is shallowly embedded below: pure record-building and
  list-merging code becomes Lean functions; exception control flow becomes
  Except/Option values; external collaborators (the WMI API, the win32
  display enumeration, the brand lookup table, the per-record brightness
  calls) are passed in as explicit parameters describing their outcome.
  The process-wide cache is an external collaborator as well: the
  definitions model the cache-miss branch of each function, i.e. the
  computation performed on a fresh process.
-/

namespace SBC

/-- The two brightness control channels: `WMI` (firmware-identity channel,
Channel A) and `VCP` (handle-enumeration channel, Channel B). In the source
these are the classes `WMI` and `VCP`; a record's `method` field holds one
of the two. -/
inductive Method
  | wmi
  | vcp
deriving DecidableEq, Repr

/-- One monitor info dictionary as built at windows.py line 72 (WMI) and
line 300 (VCP): keys name, model, model_name, serial, manufacturer,
manufacturer_id, index, method, edid. Nullable fields are `Option`. -/
structure MonitorRecord where
  name : String
  model : String
  model_name : Option String
  serial : String
  manufacturer : Option String
  manufacturer_id : Option String
  index : Nat
  method : Method
  edid : Option String
deriving DecidableEq, Repr

/-- The dedup loop of `list_monitors_info` (windows.py lines 493-500):
for each record `i` of the concatenated channel outputs, if `i['edid']` is
not in the `edids` list seen so far, the edid is recorded and the record
kept; otherwise the record is dropped. The Python code appends to the seen
list while this embedding conses; only membership in the seen list is ever
tested, so the two are equivalent. Note the null edid (`none`) is inserted
into the seen list exactly like any other value. -/
def dedupLoop : List MonitorRecord → List (Option String) → List MonitorRecord
  | [], _ => []
  | i :: rest, edids =>
    if i.edid ∈ edids then
      dedupLoop rest edids
    else
      i :: dedupLoop rest (i.edid :: edids)

/-- `list_monitors_info(method=None)` on a cache miss (windows.py lines
484-502): `methods = [WMI, VCP]`, so the WMI enumeration is consulted
first, then VCP, sharing one `edids`/`info` accumulator pair; this equals
running the dedup loop over the concatenation. The two arguments are the
outputs of `WMI.get_display_info()` and `VCP.get_display_info()`. -/
def list_monitors_info (wmiInfo vcpInfo : List MonitorRecord) : List MonitorRecord :=
  dedupLoop (wmiInfo ++ vcpInfo) []

/-- `list_monitors(method=None)` (windows.py lines 504-522): the names of
the merged records. -/
def list_monitors (wmiInfo vcpInfo : List MonitorRecord) : List String :=
  (list_monitors_info wmiInfo vcpInfo).map (fun i => i.name)

/-- Characterization of the dedup loop at a fixed edid value `e`: the
merged list keeps exactly the first input record carrying `e` (none if `e`
was already seen), uniformly in `e` — including `e = none`. -/
theorem dedupLoop_filter_edid (e : Option String) (l : List MonitorRecord) :
    ∀ seen : List (Option String),
      (dedupLoop l seen).filter (fun r => r.edid == e) =
        if e ∈ seen then [] else (l.filter (fun r => r.edid == e)).take 1 := by
  induction l with
  | nil =>
    intro seen
    simp [dedupLoop]
  | cons i rest ih =>
    intro seen
    by_cases hi : i.edid ∈ seen
    · by_cases he : e ∈ seen
      · simp [dedupLoop, hi, he, ih seen]
      · have hne : (i.edid == e) = false := by
          simp only [beq_eq_false_iff_ne, ne_eq]
          intro h
          exact he (h ▸ hi)
        simp [dedupLoop, hi, he, ih seen, List.filter_cons, hne]
    · by_cases hie : i.edid = e
      · subst hie
        have he : i.edid ∉ seen := hi
        simp [dedupLoop, hi, he, List.filter_cons, ih (i.edid :: seen)]
      · have hne : (i.edid == e) = false := by
          simp only [beq_eq_false_iff_ne, ne_eq]
          exact hie
        have hmem : (e ∈ i.edid :: seen) ↔ (e ∈ seen) := by
          simp only [List.mem_cons]
          constructor
          · rintro (h | h)
            · exact absurd h.symm hie
            · exact h
          · exact Or.inr
        by_cases he : e ∈ seen
        · simp [dedupLoop, hi, he, List.filter_cons, hne, ih (i.edid :: seen), hmem]
        · simp [dedupLoop, hi, he, List.filter_cons, hne, ih (i.edid :: seen), hmem]

/-- Sample record: a monitor as reported by the WMI channel. -/
def sampleWmiRec : MonitorRecord :=
  { name := "BenQ GL2450H", model := "GL2450H", model_name := none, serial := "WSERIAL1"
    manufacturer := some "BenQ", manufacturer_id := some "BNQ", index := 0
    method := Method.wmi, edid := some "00ffab" }

/-- Sample record: the same physical monitor as reported by the VCP channel
(same edid, different channel-local fields). -/
def sampleVcpRec : MonitorRecord :=
  { name := "Benq GL2450H", model := "GL2450H", model_name := none, serial := "VSERIAL1"
    manufacturer := some "Benq", manufacturer_id := none, index := 0
    method := Method.vcp, edid := some "00ffab" }

/-- Sample record with a null edid from the WMI channel. -/
def sampleNullEdidWmi : MonitorRecord :=
  { name := "None XYZ1", model := "XYZ1", model_name := none, serial := "NA"
    manufacturer := none, manufacturer_id := some "XYZ", index := 1
    method := Method.wmi, edid := none }

/-- Sample record with a null edid from the VCP channel. -/
def sampleNullEdidVcp : MonitorRecord :=
  { name := "Dell U2211H", model := "U2211H", model_name := none, serial := "NB"
    manufacturer := some "Dell", manufacturer_id := some "DEL", index := 1
    method := Method.vcp, edid := none }

/-- C1: when each channel list contains exactly one record with the same
non-null edid `b`, the merged list produced by `list_monitors_info` (no
channel constraint) contains exactly one record with edid `b`, and it is
the record from the WMI channel list (channel A is consulted first). -/
theorem c1_merge_dedup_first_wins (b : String) (wmiInfo vcpInfo : List MonitorRecord)
    (hw : (wmiInfo.filter (fun r => r.edid == some b)).length = 1)
    (_hv : (vcpInfo.filter (fun r => r.edid == some b)).length = 1) :
    ((list_monitors_info wmiInfo vcpInfo).filter (fun r => r.edid == some b)).length = 1 ∧
    (list_monitors_info wmiInfo vcpInfo).filter (fun r => r.edid == some b) =
      wmiInfo.filter (fun r => r.edid == some b) := by
  have hchar := dedupLoop_filter_edid (some b) (wmiInfo ++ vcpInfo) []
  have hmain : (list_monitors_info wmiInfo vcpInfo).filter (fun r => r.edid == some b) =
      wmiInfo.filter (fun r => r.edid == some b) := by
    rw [list_monitors_info, hchar]
    simp only [List.not_mem_nil, if_false, List.filter_append]
    obtain ⟨a, ha⟩ := List.length_eq_one.mp hw
    rw [ha]
    rfl
  exact ⟨by rw [hmain, hw], hmain⟩

/-- C1 witness: two singleton channel lists reporting the same edid
"00ffab"; the merge keeps exactly the WMI record. -/
theorem c1_merge_dedup_first_wins_witness :
    (([sampleWmiRec].filter (fun r => r.edid == some "00ffab")).length = 1 ∧
     ([sampleVcpRec].filter (fun r => r.edid == some "00ffab")).length = 1) ∧
    (((list_monitors_info [sampleWmiRec] [sampleVcpRec]).filter
        (fun r => r.edid == some "00ffab")).length = 1 ∧
     (list_monitors_info [sampleWmiRec] [sampleVcpRec]).filter
        (fun r => r.edid == some "00ffab") =
       [sampleWmiRec].filter (fun r => r.edid == some "00ffab")) :=
  ⟨⟨by decide, by decide⟩,
   c1_merge_dedup_first_wins "00ffab" [sampleWmiRec] [sampleVcpRec] (by decide) (by decide)⟩

/-- C2 counterexample: `sampleNullEdidVcp` has a null edid, yet it IS
removed by the merge when a null-edid record was already seen: the dedup
loop records `None` in its seen-edids list like any other value
(windows.py lines 498-500), so the second null-edid record is dropped. -/
theorem c2_null_edid_counterexample :
    sampleNullEdidVcp.edid = none ∧
    sampleNullEdidVcp ∉ list_monitors_info [sampleNullEdidWmi] [sampleNullEdidVcp] ∧
    list_monitors_info [sampleNullEdidWmi] [sampleNullEdidVcp] = [sampleNullEdidWmi] := by
  refine ⟨rfl, ?_, by decide⟩
  decide

/-- C2 amended: null-edid records are deduplicated exactly like any other
edid value — the merge keeps only the FIRST record whose edid is null and
drops every later null-edid record. -/
theorem c2_amended_null_dedup_keeps_first (wmiInfo vcpInfo : List MonitorRecord) :
    (list_monitors_info wmiInfo vcpInfo).filter (fun r => r.edid == none) =
      ((wmiInfo ++ vcpInfo).filter (fun r => r.edid == none)).take 1 := by
  have hchar := dedupLoop_filter_edid none (wmiInfo ++ vcpInfo) []
  rw [list_monitors_info, hchar]
  simp

/-- The value of f-string interpolation of an optional Python value: `None`
prints as the literal string "None" (used by the `name` field when the
manufacturer could not be resolved). -/
def pyShowOpt : Option String → String
  | some s => s
  | none => "None"

/-- Python single-character str.split helper: split the character list at
every occurrence of `sep`, keeping empty segments, exactly as Python
`s.split(sep)` does for a one-character separator. -/
def splitOnCharAux (sep : Char) : List Char → List Char → List (List Char)
  | [], acc => [acc.reverse]
  | c :: cs, acc =>
    if c = sep then acc.reverse :: splitOnCharAux sep cs []
    else splitOnCharAux sep cs (c :: acc)

/-- Python `s.split(sep)` for a one-character separator `sep`, as used on
the InstanceName (separator backslash, line 59) and the friendly name
(separator space, line 291). -/
def pySplit (sep : Char) (s : String) : List String :=
  (splitOnCharAux sep s.data []).map String.mk

/-- Python `s.lower()`. -/
def pyLower (s : String) : String :=
  String.mk (s.data.map Char.toLower)

/-- Python `s[:3]`, the raw manufacturer code slice (line 63). -/
def pyTake3 (s : String) : String :=
  String.mk (s.data.take 3)

/-- Python str.capitalize: first character uppercased, the rest lowercased
(windows.py line 292 applies `.lower().capitalize()`). -/
def pyCapitalize (s : String) : String :=
  match s.data with
  | [] => ""
  | c :: cs => String.mk (c.toUpper :: cs.map Char.toLower)

/-- Hex rendering of one descriptor byte as in
`str(hex(i)).replace('0x','')` (windows.py lines 68 and 296): lowercase
hex digits, no zero padding. -/
def hexStr (n : Nat) : String :=
  String.mk (Nat.toDigits 16 n)

/-- Edid string built from the raw descriptor block bytes: the
concatenation of the per-byte hex strings. The `none` input models every
failure path of the `try`/`except` around the descriptor access (missing
descriptor dict, missing key, API error), which sets `edid = None`. -/
def edidOfDescriptor : Option (List Nat) → Option String
  | none => none
  | some bs => some (String.join (bs.map hexStr))

/-- The outcome of the external brand lookup collaborator
`_monitor_brand_lookup`: `.ok (man_id, manufacturer)` on success, `.error`
models the `LookupError`-equivalent raised when the code/name is unknown. -/
abbrev BrandLookup := String → Except Unit (String × String)

/-- Lines 63-65 of windows.py: `man_id = model[:3]`, then the lookup
result overwrites both `(man_id, manufacturer)` on success; on failure
only `manufacturer` is set (to None) and `man_id` KEEPS the raw code. -/
def wmiManPair (lookup : BrandLookup) (code : String) : Option String × Option String :=
  match lookup code with
  | Except.ok (mid, manu) => (some mid, some manu)
  | Except.error _ => (some code, none)

/-- One raw monitor object yielded by `wmi.WmiMonitorBrightness()`:
`instanceName` is the COM InstanceName string, `descriptorBytes` the raw
edid block the descriptor query yielded for that instance name, if any. -/
structure WmiRawMonitor where
  instanceName : String
  descriptorBytes : Option (List Nat)
deriving DecidableEq, Repr

/-- Body of the per-monitor record construction inside
`WMI.get_display_info` (windows.py lines 58-74): split the instance name
on backslash, serial is the last part (`instance[-1]`), model is
`instance[1]`; `none` models the IndexError raised when the split has
fewer than two parts (which aborts the whole enumeration loop via the
outer handler). -/
def wmiBuildRecord (lookup : BrandLookup) (a : Nat) (m : WmiRawMonitor) :
    Option MonitorRecord :=
  match pySplit '\\' m.instanceName with
  | p0 :: p1 :: rest =>
    some { name := pyShowOpt (wmiManPair lookup (pyTake3 p1)).2 ++ " " ++ p1
           model := p1, model_name := none
           serial := (p0 :: p1 :: rest).getLastD ""
           manufacturer := (wmiManPair lookup (pyTake3 p1)).2
           manufacturer_id := (wmiManPair lookup (pyTake3 p1)).1
           index := a, method := Method.wmi
           edid := edidOfDescriptor m.descriptorBytes }
  | _ => none

/-- The enumeration loop of `WMI.get_display_info` (windows.py lines
58-74): no per-monitor exception handler exists, so the first failing
record construction aborts the loop; the outer bare `except: pass` (lines
75-76) keeps the records accumulated so far. -/
def wmiBuildLoop (lookup : BrandLookup) (a : Nat) : List WmiRawMonitor → List MonitorRecord
  | [] => []
  | m :: rest =>
    match wmiBuildRecord lookup a m with
    | some rec => rec :: wmiBuildLoop lookup (a + 1) rest
    | none => []

/-- `WMI.get_display_info(display=None)` on a cache miss (windows.py lines
48-81): `api` is the outcome of the underlying WMI query
(`_wmi_init()` + `WmiMonitorBrightness()` + descriptor correlation);
`.error` models any exception from those calls, absorbed by the bare
`except: pass` at lines 75-76 with `info` left as the empty list. -/
def wmi_get_display_info (api : Except Unit (List WmiRawMonitor))
    (lookup : BrandLookup) : List MonitorRecord :=
  match api with
  | Except.error _ => []
  | Except.ok monitors => wmiBuildLoop lookup 0 monitors

/-- Lines 293-294 of windows.py: the lookup result overwrites both
`(man_id, manufacturer)` on success; on failure only `man_id` is set (to
None) and `manufacturer` KEEPS the capitalized parsed name. -/
def vcpManPair (lookup : BrandLookup) (manufacturerCap : String) :
    Option String × Option String :=
  match lookup manufacturerCap with
  | Except.ok (mid, manu) => (some mid, some manu)
  | Except.error _ => (none, some manufacturerCap)

/-- One raw monitor object from `wmi.WmiMonitorID()` as consumed by
`VCP.get_display_info` after the win32 correlation sort: the fields hold
the already-decoded, NUL-stripped serial and friendly-name strings, and
the raw descriptor block for the instance. -/
structure VcpRawMonitor where
  serialNumberId : String
  userFriendlyName : String
  descriptorBytes : Option (List Nat)
deriving DecidableEq, Repr

/-- Body of the per-monitor record construction inside
`VCP.get_display_info` (windows.py lines 289-304): the friendly name must
split on one space into exactly (manufacturer, model) — any other shape
raises ValueError inside the per-monitor `try` and the record is skipped
(`none`). -/
def vcpBuildRecord (lookup : BrandLookup) (a : Nat) (m : VcpRawMonitor) :
    Option MonitorRecord :=
  match pySplit ' ' m.userFriendlyName with
  | [manufacturer0, model] =>
    some { name := pyShowOpt (vcpManPair lookup (pyCapitalize (pyLower manufacturer0))).2
             ++ " " ++ model
           model := model, model_name := none
           serial := m.serialNumberId
           manufacturer := (vcpManPair lookup (pyCapitalize (pyLower manufacturer0))).2
           manufacturer_id := (vcpManPair lookup (pyCapitalize (pyLower manufacturer0))).1
           index := a, method := Method.vcp
           edid := edidOfDescriptor m.descriptorBytes }
  | _ => none

/-- The enumeration loop of `VCP.get_display_info` (windows.py lines
287-304): each record is built inside a `try`/`except: pass`, so a failing
record is silently skipped and the loop continues; the index counter `a`
is only incremented after a successful append. -/
def vcpBuildLoop (lookup : BrandLookup) (a : Nat) : List VcpRawMonitor → List MonitorRecord
  | [] => []
  | m :: rest =>
    match vcpBuildRecord lookup a m with
    | some rec => rec :: vcpBuildLoop lookup (a + 1) rest
    | none => vcpBuildLoop lookup a rest

/-- `VCP.get_display_info(display=None)` on a cache miss (windows.py lines
276-314): `api` is the outcome of the win32 enumeration + correlation sort
(lines 281-286); `.error` models any exception there, absorbed by the
outer bare `except: pass` with `info` left empty. -/
def vcp_get_display_info (api : Except Unit (List VcpRawMonitor))
    (lookup : BrandLookup) : List MonitorRecord :=
  match api with
  | Except.error _ => []
  | Except.ok monitors => vcpBuildLoop lookup 0 monitors

/-- A brand lookup collaborator that fails on every input (every
code/name unknown). -/
def failLookup : BrandLookup := fun _ => Except.error ()

/-- On a failing lookup, the WMI channel keeps the raw code and nulls the
manufacturer name. -/
theorem wmiManPair_error (lookup : BrandLookup) (code : String)
    (h : lookup code = Except.error ()) :
    wmiManPair lookup code = (some code, none) := by
  unfold wmiManPair
  rw [h]

/-- On a failing lookup, the VCP channel nulls the code and keeps the
parsed capitalized name. -/
theorem vcpManPair_error (lookup : BrandLookup) (cap : String)
    (h : lookup cap = Except.error ()) :
    vcpManPair lookup cap = (none, some cap) := by
  unfold vcpManPair
  rw [h]

/-- The dedup loop is the identity on a list whose edids are pairwise
distinct and disjoint from the already-seen edids. -/
theorem dedupLoop_eq_self (l : List MonitorRecord) :
    ∀ seen : List (Option String), (l.map (fun r => r.edid)).Nodup →
      (∀ r ∈ l, r.edid ∉ seen) → dedupLoop l seen = l := by
  induction l with
  | nil =>
    intro seen _ _
    rfl
  | cons i rest ih =>
    intro seen hnodup hdisj
    have hi : i.edid ∉ seen := hdisj i (List.mem_cons_self i rest)
    rw [List.map_cons, List.nodup_cons] at hnodup
    rw [dedupLoop, if_neg hi, ih (i.edid :: seen) hnodup.2]
    intro r hr
    rw [List.mem_cons]
    rintro (h | h)
    · exact hnodup.1 (h ▸ List.mem_map_of_mem (fun r => r.edid) hr)
    · exact hdisj r (List.mem_cons_of_mem i hr) h

/-- A second VCP-channel record with a null edid, as produced when the
descriptor dict build at line 285 fails and lines 296-298 leave
`edid = None` for every VCP record. -/
def c4NullEdidVcp2 : MonitorRecord :=
  { name := "Acer V226HQL", model := "V226HQL", model_name := none, serial := "NC"
    manufacturer := some "Acer", manufacturer_id := some "ACR", index := 2
    method := Method.vcp, edid := none }

/-- C4 counterexample: Channel A errors and `WMI.get_display_info` does
return the empty list, yet discovery does NOT return every record the VCP
channel produced: the merge at lines 493-500 deduplicates the surviving
channel's records by edid regardless of the WMI failure, so of two VCP
records that share a null edid only the first survives. -/
theorem c4_wmi_failure_duplicate_edid_counterexample :
    wmi_get_display_info (Except.error ()) failLookup = [] ∧
    sampleNullEdidVcp.edid = none ∧
    c4NullEdidVcp2.edid = none ∧
    list_monitors_info (wmi_get_display_info (Except.error ()) failLookup)
        [sampleNullEdidVcp, c4NullEdidVcp2] = [sampleNullEdidVcp] ∧
    c4NullEdidVcp2 ∉ list_monitors_info (wmi_get_display_info (Except.error ()) failLookup)
        [sampleNullEdidVcp, c4NullEdidVcp2] := by
  refine ⟨rfl, rfl, rfl, by decide, by decide⟩

/-- C4 amended: when the underlying WMI API call errors during
enumeration, `WMI.get_display_info` returns the empty list (the error is
absorbed, not propagated), and `list_monitors_info` / `list_monitors`
still return every record the VCP channel produced PROVIDED those records
carry pairwise-distinct edids, with no exception surfaced — the
embedding's return type carries no error case because lines 484-502 raise
only for an invalid `method` argument. VCP records sharing an edid are
still deduplicated by the merge, WMI failure or not. -/
theorem c4_wmi_enumeration_fails_soft (lookup : BrandLookup)
    (vcpInfo : List MonitorRecord)
    (hnodup : (vcpInfo.map (fun r => r.edid)).Nodup) :
    wmi_get_display_info (Except.error ()) lookup = [] ∧
    list_monitors_info (wmi_get_display_info (Except.error ()) lookup) vcpInfo = vcpInfo ∧
    list_monitors (wmi_get_display_info (Except.error ()) lookup) vcpInfo =
      vcpInfo.map (fun r => r.name) := by
  have hempty : wmi_get_display_info (Except.error ()) lookup = [] := rfl
  have hmerge : list_monitors_info (wmi_get_display_info (Except.error ()) lookup) vcpInfo =
      vcpInfo := by
    rw [hempty, list_monitors_info, List.nil_append]
    exact dedupLoop_eq_self vcpInfo [] hnodup (by simp)
  exact ⟨hempty, hmerge, by rw [list_monitors, hmerge]⟩

/-- C4 witness: Channel A errors while Channel B reports two valid
records; discovery returns exactly those two records. -/
theorem c4_wmi_enumeration_fails_soft_witness :
    ((([sampleVcpRec, sampleNullEdidVcp] : List MonitorRecord).map
        (fun r => r.edid)).Nodup) ∧
    (wmi_get_display_info (Except.error ()) failLookup = [] ∧
     list_monitors_info (wmi_get_display_info (Except.error ()) failLookup)
        [sampleVcpRec, sampleNullEdidVcp] = [sampleVcpRec, sampleNullEdidVcp] ∧
     list_monitors (wmi_get_display_info (Except.error ()) failLookup)
        [sampleVcpRec, sampleNullEdidVcp] =
       [sampleVcpRec, sampleNullEdidVcp].map (fun r => r.name)) :=
  ⟨by decide,
   c4_wmi_enumeration_fails_soft failLookup [sampleVcpRec, sampleNullEdidVcp] (by decide)⟩

/-- Concrete raw WMI monitor whose manufacturer code "XYZ" is unknown to
the brand lookup. -/
def c8WmiRaw : WmiRawMonitor :=
  { instanceName := "DISPLAY\\XYZ1234\\5H2D", descriptorBytes := some [255] }

/-- The record produced for `c8WmiRaw` under a failing brand lookup. -/
def c8WmiRec : MonitorRecord :=
  { name := "None XYZ1234", model := "XYZ1234", model_name := none, serial := "5H2D"
    manufacturer := none, manufacturer_id := some "XYZ", index := 0
    method := Method.wmi, edid := some "ff" }

/-- Concrete raw VCP monitor whose manufacturer name is unknown to the
brand lookup. -/
def c8VcpRaw : VcpRawMonitor :=
  { serialNumberId := "VSER123", userFriendlyName := "UNKNOWNBRAND U9999"
    descriptorBytes := some [0] }

/-- The record produced for `c8VcpRaw` under a failing brand lookup. -/
def c8VcpRec : MonitorRecord :=
  { name := "Unknownbrand U9999", model := "U9999", model_name := none, serial := "VSER123"
    manufacturer := some "Unknownbrand", manufacturer_id := none, index := 0
    method := Method.vcp, edid := some "0" }

/-- C8 counterexample: for a WMI monitor whose code is unknown to the
brand lookup, the produced record does NOT have both manufacturer fields
null: line 63 pre-assigns `man_id = model[:3]` and the `except` branch at
line 65 only nulls `manufacturer`, so `manufacturer_id` keeps the raw
code. (Symmetrically, the VCP channel at line 294 only nulls `man_id`,
keeping the parsed name in `manufacturer`.) -/
theorem c8_lookup_failure_counterexample :
    wmiBuildRecord failLookup 0 c8WmiRaw = some c8WmiRec ∧
    c8WmiRec.manufacturer = none ∧
    c8WmiRec.manufacturer_id = some "XYZ" := by
  refine ⟨by decide, rfl, rfl⟩

/-- C8 amended: when the brand lookup fails, enumeration still produces
the record (whether a record is produced is independent of the lookup
outcome), but only ONE manufacturer field is null per channel: the WMI
channel leaves `manufacturer` null while `manufacturer_id` keeps the raw
3-letter code `model[:3]`; the VCP channel leaves `manufacturer_id` null
while `manufacturer` keeps the name parsed from the friendly name. -/
theorem c8_amended_lookup_failure_fields :
    (∀ (lookupA lookupB : BrandLookup) (a : Nat) (m : WmiRawMonitor),
        (wmiBuildRecord lookupA a m).isSome = (wmiBuildRecord lookupB a m).isSome) ∧
    (∀ (lookupA lookupB : BrandLookup) (a : Nat) (m : VcpRawMonitor),
        (vcpBuildRecord lookupA a m).isSome = (vcpBuildRecord lookupB a m).isSome) ∧
    (∀ (lookup : BrandLookup) (a : Nat) (m : WmiRawMonitor) (r : MonitorRecord),
        (∀ s, lookup s = Except.error ()) →
        wmiBuildRecord lookup a m = some r →
        r.manufacturer = none ∧ r.manufacturer_id = some (pyTake3 r.model)) ∧
    (∀ (lookup : BrandLookup) (a : Nat) (m : VcpRawMonitor) (r : MonitorRecord),
        (∀ s, lookup s = Except.error ()) →
        vcpBuildRecord lookup a m = some r →
        r.manufacturer_id = none ∧ r.manufacturer ≠ none) := by
  refine ⟨?_, ?_, ?_, ?_⟩
  · intro lookupA lookupB a m
    unfold wmiBuildRecord
    split <;> rfl
  · intro lookupA lookupB a m
    unfold vcpBuildRecord
    split <;> rfl
  · intro lookup a m r hfail hrec
    unfold wmiBuildRecord at hrec
    split at hrec
    · injection hrec with h
      subst h
      rw [wmiManPair_error lookup _ (hfail _)]
      exact ⟨rfl, rfl⟩
    · exact absurd hrec (by simp)
  · intro lookup a m r hfail hrec
    unfold vcpBuildRecord at hrec
    split at hrec
    · injection hrec with h
      subst h
      rw [vcpManPair_error lookup _ (hfail _)]
      exact ⟨rfl, by simp⟩
    · exact absurd hrec (by simp)

/-- C8 amended witness: concrete monitors with unknown brands in each
channel; the records are produced with exactly one null manufacturer
field each. -/
theorem c8_amended_lookup_failure_fields_witness :
    (c8WmiRec.manufacturer = none ∧
     c8WmiRec.manufacturer_id = some (pyTake3 c8WmiRec.model)) ∧
    (c8VcpRec.manufacturer_id = none ∧ c8VcpRec.manufacturer ≠ none) ∧
    (wmiBuildRecord failLookup 0 c8WmiRaw).isSome =
      (wmiBuildRecord (fun s => Except.ok (s, s)) 0 c8WmiRaw).isSome ∧
    (vcpBuildRecord failLookup 0 c8VcpRaw).isSome =
      (vcpBuildRecord (fun s => Except.ok (s, s)) 0 c8VcpRaw).isSome :=
  ⟨c8_amended_lookup_failure_fields.2.2.1 failLookup 0 c8WmiRaw c8WmiRec
      (fun _ => rfl) (by decide),
   c8_amended_lookup_failure_fields.2.2.2 failLookup 0 c8VcpRaw c8VcpRec
      (fun _ => rfl) (by decide),
   c8_amended_lookup_failure_fields.1 failLookup (fun s => Except.ok (s, s)) 0 c8WmiRaw,
   c8_amended_lookup_failure_fields.2.1 failLookup (fun s => Except.ok (s, s)) 0 c8VcpRaw⟩

/-- A caller-supplied monitor query: absent (all monitors), an index into
the merged list, or a string matched against record fields. A query of any
other Python type would raise TypeError; the typed embedding cannot
express such a value, so that branch has no counterpart here. -/
inductive MonitorQuery
  | all
  | idx (i : Nat)
  | str (s : String)

/-- The exception class raised by a failing resolution step. -/
inductive ResolutionError
  | lookupError
  | indexError
deriving DecidableEq, Repr

/-- Python exception class name of a resolution error
(`type(e).__name__`). -/
def resErrKind : ResolutionError → String
  | ResolutionError.lookupError => "LookupError"
  | ResolutionError.indexError => "IndexError"

/-- Modelled from the spec: `filter_monitors` lives in the package
top-level module, which is not under src/ (only its caller windows.py
is). Spec section 4.4: query none returns the haystack (restricted to the
channel constraint); an integer query returns the single record at that
position of the channel-restricted haystack, signalling IndexError when
out of range; a string query is matched case-insensitively and exactly
against, in priority order, serial, name, model, identity_block — the
first field matching any record wins and ALL records matching on that
field are returned; no match across all fields signals LookupError. -/
def filter_monitors (q : MonitorQuery) (haystack : List MonitorRecord)
    (channel : Option Method) : Except ResolutionError (List MonitorRecord) :=
  let hs := match channel with
    | none => haystack
    | some c => haystack.filter (fun r => r.method == c)
  match q with
  | MonitorQuery.all => Except.ok hs
  | MonitorQuery.idx i =>
    match hs.get? i with
    | some r => Except.ok [r]
    | none => Except.error ResolutionError.indexError
  | MonitorQuery.str s =>
    let fieldMatch := fun (f : MonitorRecord → Option String) =>
      hs.filter (fun r => match f r with
        | some v => pyLower s == pyLower v
        | none => false)
    let candidates := [fieldMatch (fun r => some r.serial), fieldMatch (fun r => some r.name),
                       fieldMatch (fun r => some r.model), fieldMatch (fun r => r.edid)]
    match candidates.find? (fun l => !l.isEmpty) with
    | some l => Except.ok l
    | none => Except.error ResolutionError.lookupError

/-- One entry of the `errors` list inside `__set_and_get_brightness`
(windows.py lines 531 and 541): the display label (empty for a resolution
failure), the exception class name `type(e).__name__`, and the exception
detail text. -/
structure ErrorEntry where
  recordName : String
  errorKind : String
  errorDetail : String
deriving DecidableEq, Repr

/-- The value returned by one per-record brightness method call: a single
integer or a list of integers (`WMI.get_brightness` returns either,
depending on how many monitors matched). -/
inductive BrightnessResult
  | num (n : Int)
  | nums (l : List Int)
deriving DecidableEq, Repr

/-- Outcome of one per-record call
`getattr(m['method'], meta_method+'_brightness')(...)` (windows.py line
537): a returned value (`none` models a Python None return, e.g. a
`no_return=True` set call or a failed VCP read) or a raised exception with
its class name and detail. -/
inductive CallOutcome
  | ok (v : Option BrightnessResult)
  | raised (kind detail : String)

/-- Modelled from the spec: `flatten_list` lives in the package top-level
module, not under src/. Spec section 4.5: the dispatch "flattens one level
of nested list results from fan-out", while a scalar or null slot stays a
single element. -/
def flatten_list (out : List (Option BrightnessResult)) : List (Option Int) :=
  out.flatMap (fun slot => match slot with
    | none => [none]
    | some (BrightnessResult.num n) => [some n]
    | some (BrightnessResult.nums l) => l.map some)

/-- The display label used in a per-record error entry (windows.py line
541): `f"{name} ({serial})"`. -/
def recordLabel (m : MonitorRecord) : String :=
  m.name ++ " (" ++ m.serial ++ ")"

/-- The result of `__set_and_get_brightness`: a returned scalar slot, a
returned list, or the raised `Exception` carrying the collected error
entries. -/
inductive DispatchResult
  | value (v : Option Int)
  | values (l : List (Option Int))
  | aggregateError (entries : List ErrorEntry)
deriving DecidableEq, Repr

/-- The per-record dispatch loop of `__set_and_get_brightness` (windows.py
lines 533-541): each record's call result is appended to `output`; a
raising call appends `None` to `output` (the slot is kept, not dropped)
and one labelled entry to `errors`. -/
def dispatchLoop (call : MonitorRecord → CallOutcome) :
    List MonitorRecord → List (Option BrightnessResult) × List ErrorEntry
  | [] => ([], [])
  | m :: rest =>
    let next := dispatchLoop call rest
    match call m with
    | CallOutcome.ok v => (v :: next.1, next.2)
    | CallOutcome.raised k d => (none :: next.1, ⟨recordLabel m, k, d⟩ :: next.2)

/-- The message assembled before the final `raise Exception(msg)`
(windows.py lines 548-552): one tab-indented line per error entry; when no
entry was collected the fixed fallback text is used. -/
def aggregateMsg (errors : List ErrorEntry) : String :=
  let msg := errors.foldl
    (fun acc e =>
      acc ++ "\t" ++ e.recordName ++ " -> " ++ e.errorKind ++ ": " ++ e.errorDetail ++ "\n")
    "\n"
  if msg == "\n" then msg ++ "\tno valid output was received from brightness methods" else msg

/-- `__set_and_get_brightness` (windows.py lines 524-553). The resolution
step (the `filter_monitors` call at line 529) is passed in as `resolution`;
its exception is caught at line 530 and recorded as an entry with an empty
display label, skipping the dispatch loop. Otherwise the loop runs; if
`output` is nonempty and not all None, the output is flattened one level
and the single element returned when exactly one remains, else the list;
in every other case the collected errors are raised as one generic
aggregate `Exception`. -/
def set_and_get_brightness (resolution : Except ErrorEntry (List MonitorRecord))
    (call : MonitorRecord → CallOutcome) : DispatchResult :=
  match resolution with
  | Except.error e => DispatchResult.aggregateError [e]
  | Except.ok monitors =>
    let res := dispatchLoop call monitors
    if !res.1.isEmpty && res.1.any (fun o => !(o == none)) then
      let flat := flatten_list res.1
      if flat.length == 1 then DispatchResult.value (flat.headD none)
      else DispatchResult.values flat
    else DispatchResult.aggregateError res.2

/-- Top-level `set_brightness` / `get_brightness` (windows.py lines
555-638): both delegate to `__set_and_get_brightness`, which resolves the
query through `filter_monitors` and dispatches. `resDetail` supplies the
`str()` rendering of a resolution exception, which the embedding leaves
abstract. -/
def windows_brightness_op (q : MonitorQuery) (methodConstraint : Option Method)
    (haystack : List MonitorRecord) (resDetail : ResolutionError → String)
    (call : MonitorRecord → CallOutcome) : DispatchResult :=
  set_and_get_brightness
    (match filter_monitors q haystack methodConstraint with
     | Except.ok monitors => Except.ok monitors
     | Except.error e => Except.error ⟨"", resErrKind e, resDetail e⟩)
    call

/-- The result slot a record contributes to `output`: the returned value
for a successful call, `None` for a raising call (windows.py line 540). -/
def callSlot (call : MonitorRecord → CallOutcome) (m : MonitorRecord) :
    Option BrightnessResult :=
  match call m with
  | CallOutcome.ok v => v
  | CallOutcome.raised _ _ => none

/-- The `output` list accumulated by the dispatch loop is exactly the
per-record slot list, in record order: absence is preserved in place. -/
theorem dispatchLoop_fst (call : MonitorRecord → CallOutcome) (monitors : List MonitorRecord) :
    (dispatchLoop call monitors).1 = monitors.map (callSlot call) := by
  induction monitors with
  | nil => rfl
  | cons m rest ih =>
    rw [List.map_cons, dispatchLoop]
    cases hc : call m <;> simp [callSlot, hc, ih]

/-- When every per-record call raises, the dispatch loop yields an
all-None output and one labelled error entry per record, in order. -/
theorem dispatchLoop_all_raise (call : MonitorRecord → CallOutcome)
    (kind detail : MonitorRecord → String) (monitors : List MonitorRecord)
    (hfail : ∀ m ∈ monitors, call m = CallOutcome.raised (kind m) (detail m)) :
    dispatchLoop call monitors =
      (monitors.map (fun _ => none),
       monitors.map (fun m => ⟨recordLabel m, kind m, detail m⟩)) := by
  induction monitors with
  | nil => rfl
  | cons m rest ih =>
    rw [dispatchLoop, hfail m (List.mem_cons_self m rest),
        ih (fun x hx => hfail x (List.mem_cons_of_mem m hx))]
    rfl

/-- C3: evaluated at the failing input — a string query matching no record
on any field with two known monitors — `set_brightness` does NOT propagate
the resolver's LookupError: lines 528-531 catch it, record it as the entry
`('', 'LookupError', detail)`, and lines 547-553 raise a generic aggregate
`Exception` built from that single entry instead. -/
theorem c3_unmatched_query_wrapped_into_aggregate :
    windows_brightness_op (MonitorQuery.str "nonexistent-serial-XYZ") none
        [sampleWmiRec, sampleVcpRec] (fun _ => "display not found")
        (fun _ => CallOutcome.ok none) =
      DispatchResult.aggregateError [⟨"", "LookupError", "display not found"⟩] := by
  decide

/-- C5: when resolution succeeds with a nonempty record list and every
per-record brightness call raises, the operation raises one aggregate
error enumerating exactly one (record label, exception kind, detail)
entry per failed record, in record order. -/
theorem c5_all_records_fail_aggregate (monitors : List MonitorRecord)
    (call : MonitorRecord → CallOutcome) (kind detail : MonitorRecord → String)
    (hfail : ∀ m ∈ monitors, call m = CallOutcome.raised (kind m) (detail m)) :
    set_and_get_brightness (Except.ok monitors) call =
      DispatchResult.aggregateError
        (monitors.map (fun m => ⟨recordLabel m, kind m, detail m⟩)) := by
  rw [set_and_get_brightness, dispatchLoop_all_raise call kind detail monitors hfail]
  simp

/-- C5 witness: two resolved records whose set calls both fail; the raised
aggregate lists both entries. -/
theorem c5_all_records_fail_aggregate_witness :
    set_and_get_brightness (Except.ok [sampleWmiRec, sampleVcpRec])
        (fun _ => CallOutcome.raised "Exception" "mock failure") =
      DispatchResult.aggregateError
        ([sampleWmiRec, sampleVcpRec].map
          (fun m => ⟨recordLabel m, "Exception", "mock failure"⟩)) :=
  c5_all_records_fail_aggregate [sampleWmiRec, sampleVcpRec]
    (fun _ => CallOutcome.raised "Exception" "mock failure")
    (fun _ => "Exception") (fun _ => "mock failure") (fun _ _ => rfl)

/-- C6: evaluated at the failing input — `no_return=True` with one
resolved record whose set call succeeds (returning Python None, as
`WMI.set_brightness`/`VCP.set_brightness` do under `no_return`) — the
operation does NOT return None: the guard at line 543 sees an all-None
output, treats success as failure, and raises the aggregate `Exception`
with the fallback message, since no error entry was collected. Without
`no_return` (the per-record set call returns its paired get result, here
100) the operation does return that paired result. -/
theorem c6_no_return_success_still_raises :
    set_and_get_brightness (Except.ok [sampleWmiRec])
        (fun _ => CallOutcome.ok none) =
      DispatchResult.aggregateError [] ∧
    aggregateMsg [] = "\n\tno valid output was received from brightness methods" ∧
    set_and_get_brightness (Except.ok [sampleWmiRec])
        (fun _ => CallOutcome.ok (some (BrightnessResult.num 100))) =
      DispatchResult.value (some 100) := by
  exact ⟨by decide, by decide, by decide⟩

/-- C7: when resolution succeeds and at least one per-record result is
present, the collected output is the in-place slot list (absence kept as
null), flattened one level, and the operation returns the single element
when exactly one remains, else the list. -/
theorem c7_collect_flatten_scalar_or_list (monitors : List MonitorRecord)
    (call : MonitorRecord → CallOutcome)
    (hsome : (monitors.map (callSlot call)).any (fun o => !(o == none)) = true) :
    set_and_get_brightness (Except.ok monitors) call =
      (if (flatten_list (monitors.map (callSlot call))).length == 1 then
        DispatchResult.value ((flatten_list (monitors.map (callSlot call))).headD none)
      else
        DispatchResult.values (flatten_list (monitors.map (callSlot call)))) := by
  rw [set_and_get_brightness]
  have hfst := dispatchLoop_fst call monitors
  have hne : ((dispatchLoop call monitors).1.isEmpty) = false := by
    rw [hfst]
    rcases List.any_eq_true.mp hsome with ⟨o, ho, _⟩
    exact List.isEmpty_eq_false_iff_exists_mem.mpr ⟨o, ho⟩
  rw [hfst] at hne ⊢
  simp [hne, hsome]

/-- C7 witness: two resolved records, the first returning 42 and the
second failing; the operation returns the list with the failed slot
preserved as null. -/
theorem c7_collect_flatten_scalar_or_list_witness :
    set_and_get_brightness (Except.ok [sampleWmiRec, sampleVcpRec])
        (fun m => if m.method == Method.wmi then CallOutcome.ok (some (BrightnessResult.num 42))
                  else CallOutcome.raised "Exception" "read failed") =
      DispatchResult.values [some 42, none] :=
  Eq.trans
    (c7_collect_flatten_scalar_or_list [sampleWmiRec, sampleVcpRec]
      (fun m => if m.method == Method.wmi then CallOutcome.ok (some (BrightnessResult.num 42))
                else CallOutcome.raised "Exception" "read failed")
      (by decide))
    (by decide)

/-- One observable resource event of `VCP.iter_physical_monitors`
(windows.py lines 183-218): the generator yields a physical monitor
handle, or calls DestroyPhysicalMonitor on one. -/
inductive HandleEvent
  | yielded (h : Nat)
  | destroyed (h : Nat)
deriving DecidableEq, Repr

/-- The event trace of a run of `VCP.iter_physical_monitors` iterated to
exhaustion, over the flattened list of physical handles: lines 216-218
yield each handle and, upon being resumed by the consumer, destroy it. -/
def genEvents : List Nat → List HandleEvent
  | [] => []
  | h :: rest => HandleEvent.yielded h :: HandleEvent.destroyed h :: genEvents rest

/-- The event prefix executed when the consumer stops after receiving the
n-th yield: closing the suspended generator throws GeneratorExit at the
yield expression, and since lines 216-218 have no try/finally, the
DestroyPhysicalMonitor call placed after the yield never runs for the
handle the generator was suspended on. The executed prefix is therefore
the shortest prefix of the full trace containing n yield events. -/
def takeThroughYield : Nat → List HandleEvent → List HandleEvent
  | 0, _ => []
  | _ + 1, [] => []
  | n + 1, HandleEvent.yielded h :: rest =>
    HandleEvent.yielded h :: takeThroughYield n rest
  | n + 1, HandleEvent.destroyed h :: rest =>
    HandleEvent.destroyed h :: takeThroughYield (n + 1) rest

/-- The handles yielded in a trace, in order. -/
def yieldedHandles (evs : List HandleEvent) : List Nat :=
  evs.filterMap (fun e => match e with
    | HandleEvent.yielded h => some h
    | HandleEvent.destroyed _ => none)

/-- The handles destroyed in a trace, in order. -/
def destroyedHandles (evs : List HandleEvent) : List Nat :=
  evs.filterMap (fun e => match e with
    | HandleEvent.yielded _ => none
    | HandleEvent.destroyed h => some h)

theorem yieldedHandles_genEvents (hs : List Nat) :
    yieldedHandles (genEvents hs) = hs := by
  induction hs with
  | nil => rfl
  | cons h rest ih => simp [genEvents, yieldedHandles, List.filterMap_cons] at ih ⊢; exact ih

theorem destroyedHandles_genEvents (hs : List Nat) :
    destroyedHandles (genEvents hs) = hs := by
  induction hs with
  | nil => rfl
  | cons h rest ih => simp [genEvents, destroyedHandles, List.filterMap_cons] at ih ⊢; exact ih

/-- An early-terminated run that consumed n+1 yields executes the full
trace of the first n handles followed by the bare yield of handle n. -/
theorem takeThroughYield_genEvents (hs : List Nat) :
    ∀ (n : Nat) (h : Nat), hs.get? n = some h →
      takeThroughYield (n + 1) (genEvents hs) =
        genEvents (hs.take n) ++ [HandleEvent.yielded h] := by
  induction hs with
  | nil =>
    intro n h hget
    exact absurd hget (by simp)
  | cons x rest ih =>
    intro n h hget
    cases n with
    | zero =>
      simp only [List.get?_cons_zero, Option.some.injEq] at hget
      subst hget
      rfl
    | succ k =>
      simp only [List.get?_cons_succ] at hget
      rw [List.take_succ_cons, genEvents, genEvents, takeThroughYield, takeThroughYield,
          ih k h hget]
      rfl

/-- C9 counterexample: two physical handles, and a consumer that stops
iterating after the first yield (the pattern of `VCP.get_monitor_caps`
usage or any `break`): the executed trace yields handle 1 but never
destroys it — the yielded handle is released zero times, not exactly
once. -/
theorem c9_early_termination_leaks_counterexample :
    yieldedHandles (takeThroughYield 1 (genEvents [1, 2])) = [1] ∧
    destroyedHandles (takeThroughYield 1 (genEvents [1, 2])) = [] := by
  exact ⟨rfl, rfl⟩

/-- C9 amended: on a run iterated to exhaustion every yielded handle is
destroyed exactly once (the destroy trace equals the yield trace, in
order); but on a run terminated early after the n-th yield, only the
handles yielded before it are destroyed, and the handle the generator was
suspended on is never destroyed (leaks) — there is no finalizer after the
yield at line 217. -/
theorem c9_amended_release_on_exhaustion_only (hs : List Nat) :
    (yieldedHandles (genEvents hs) = hs ∧ destroyedHandles (genEvents hs) = hs) ∧
    (∀ (n : Nat) (h : Nat), hs.get? n = some h →
      yieldedHandles (takeThroughYield (n + 1) (genEvents hs)) = hs.take (n + 1) ∧
      destroyedHandles (takeThroughYield (n + 1) (genEvents hs)) = hs.take n ∧
      (hs.Nodup → h ∉ destroyedHandles (takeThroughYield (n + 1) (genEvents hs)))) := by
  refine ⟨⟨yieldedHandles_genEvents hs, destroyedHandles_genEvents hs⟩, ?_⟩
  intro n h hget
  rw [takeThroughYield_genEvents hs n h hget]
  have hy : yieldedHandles (genEvents (hs.take n) ++ [HandleEvent.yielded h]) =
      hs.take n ++ [h] := by
    rw [yieldedHandles, List.filterMap_append, ← yieldedHandles]
    rw [yieldedHandles_genEvents]
    rfl
  have hd : destroyedHandles (genEvents (hs.take n) ++ [HandleEvent.yielded h]) =
      hs.take n := by
    rw [destroyedHandles, List.filterMap_append, ← destroyedHandles]
    rw [destroyedHandles_genEvents]
    simp [destroyedHandles]
  refine ⟨?_, hd, ?_⟩
  · rw [List.get?_eq_getElem?] at hget
    rw [hy, List.take_succ, hget]
    rfl
  · intro hnodup
    rw [hd]
    intro hmem
    have hsplit : hs = hs.take n ++ hs.drop n := (List.take_append_drop n hs).symm
    have hnodup2 : (hs.take n ++ hs.drop n).Nodup := hsplit ▸ hnodup
    have hdisj := List.disjoint_of_nodup_append hnodup2
    have hdrop : h ∈ hs.drop n := by
      have : (hs.drop n).get? 0 = some h := by
        rw [List.get?_eq_getElem?, List.getElem?_drop]
        simpa [List.get?_eq_getElem?] using hget
      exact List.get?_mem this
    exact hdisj hmem hdrop

/-- C9 amended witness: three handles, consumer stops after the second
yield; handle 10 is destroyed, handle 20 is yielded but leaked. -/
theorem c9_amended_release_witness :
    (yieldedHandles (genEvents [10, 20, 30]) = [10, 20, 30] ∧
     destroyedHandles (genEvents [10, 20, 30]) = [10, 20, 30]) ∧
    (yieldedHandles (takeThroughYield 2 (genEvents [10, 20, 30])) = [10, 20] ∧
     destroyedHandles (takeThroughYield 2 (genEvents [10, 20, 30])) = [10] ∧
     20 ∉ destroyedHandles (takeThroughYield 2 (genEvents [10, 20, 30]))) :=
  ⟨(c9_amended_release_on_exhaustion_only [10, 20, 30]).1,
   by
    have := (c9_amended_release_on_exhaustion_only [10, 20, 30]).2 1 20 (by decide)
    exact ⟨this.1, this.2.1, this.2.2 (by decide)⟩⟩

/-- The Python exception class that escapes `VCP.get_brightness` on the
display=None success path. -/
inductive PyError
  | nameError
deriving DecidableEq, Repr

/-- `VCP.get_brightness(display=None)` (windows.py lines 391-417). With
display=None the lines 391-394 that assign `all_monitors` are skipped.
Each element of `reads` is the feature-read outcome for one physical
handle (`some v` when GetVCPFeatureAndVCPFeatureReply succeeds, `none`
when it fails). Per iteration: the cache access at line 400 references the
unbound `all_monitors` and raises NameError, absorbed as a cache miss by
the bare `except:` at line 401; after a successful read (`v != None`),
the cache store at line 410 references `all_monitors` again and raises
NameError, which the surrounding `except IndexError` at line 411 does NOT
catch — the exception escapes the function. When every read fails,
`values` stays empty and line 416 returns None. -/
def vcp_get_brightness_displayNone : List (Option Nat) → Except PyError (Option Nat)
  | [] => Except.ok none
  | none :: rest => vcp_get_brightness_displayNone rest
  | some _ :: _ => Except.error PyError.nameError

/-- C10: whenever at least one monitor's feature-read succeeds,
`VCP.get_brightness(display=None)` raises an unhandled NameError instead
of returning the collected values. -/
theorem c10_displayNone_read_success_raises_nameError (reads : List (Option Nat))
    (hsucc : ∃ r ∈ reads, r ≠ none) :
    vcp_get_brightness_displayNone reads = Except.error PyError.nameError := by
  induction reads with
  | nil => simp at hsucc
  | cons x rest ih =>
    cases x with
    | some v => rfl
    | none =>
      rcases hsucc with ⟨r, hr, hrne⟩
      rcases List.mem_cons.mp hr with h | h
      · exact absurd h hrne
      · exact ih ⟨r, h, hrne⟩

/-- C10 witness: the first handle's read fails, the second succeeds with
value 55; the call raises NameError. -/
theorem c10_displayNone_read_success_raises_nameError_witness :
    vcp_get_brightness_displayNone [none, some 55] = Except.error PyError.nameError :=
  c10_displayNone_read_success_raises_nameError [none, some 55]
    ⟨some 55, by decide, by decide⟩

end SBC
